import Mathlib

/-!
# Verification of the particle-engine / weather-controller subsystem

Shallow embedding of the weather/seasonal background-effect engine of this
portfolio repository: the Weather Mode Controller (`App.jsx` / `App.js`),
the autumn-leaf count distribution (`AutumnLeaves.jsx`), the per-frame
integrators of the falling species (`FloatingParticles.jsx`, `snowfall.jsx`,
`InstancedFallingItems.jsx`) and of the fireflies (`Fireflies.jsx`), and the
instance-buffer update discipline of their `useFrame` loops.

Discrete logic (mode toggling, persisted-mode fallback, count splitting,
buffer-event traces) is modelled computably over `String`/`ℕ`/`ℚ`.
The physics integrators are modelled over `ℝ`, with `Real.sin`/`Real.cos`
standing for JavaScript `Math.sin`/`Math.cos`, and each `Math.random()`
call site replaced by an explicit input parameter.
-/

set_option maxHeartbeats 1000000

namespace Portfolio

/-! ## Weather Mode Controller (src/App.jsx, src/App.js) -/

/-- The fixed mode list `WEATHER_MODES = ['sakura','fireflies','snow','rain','autumn']`. -/
def WEATHER_MODES : List String := ["sakura", "fireflies", "snow", "rain", "autumn"]

/-- JavaScript `Array.prototype.indexOf`: index of the first occurrence, `-1` if absent. -/
def jsIndexOf (l : List String) (s : String) : Int :=
  if s ∈ l then (l.indexOf s : Int) else -1

/-- `toggleWeatherMode` from `App.jsx`: advance to the cyclic successor in
`WEATHER_MODES` via `nextIndex = (currentIndex + 1) % WEATHER_MODES.length`. -/
def toggleWeatherMode (prevMode : String) : String :=
  let currentIndex := jsIndexOf WEATHER_MODES prevMode
  let nextIndex := (currentIndex + 1) % (WEATHER_MODES.length : Int)
  WEATHER_MODES.getD nextIndex.toNat "undefined"

/-- `isEffectivelyDarkMode = weatherMode === 'fireflies'` from `App.jsx`/`App.js`. -/
def isEffectivelyDarkMode (weatherMode : String) : Bool :=
  weatherMode == "fireflies"

/-- The time-of-day branch of `getInitialWeatherMode` in `App.jsx`
(hour bands 6/12/17/19; the morning band picks snow or rain by
`Math.random() < 0.5`, modelled by the draw `r`). -/
def timeBasedMode (currentHour : ℕ) (r : ℚ) : String :=
  if 6 ≤ currentHour ∧ currentHour < 12 then
    if r < 1/2 then "snow" else "rain"
  else if 12 ≤ currentHour ∧ currentHour < 17 then "sakura"
  else if 17 ≤ currentHour ∧ currentHour < 19 then "autumn"
  else "fireflies"

/-- `getInitialWeatherMode` from `App.jsx`: a truthy stored value that is a
member of `WEATHER_MODES` wins, otherwise the time-of-day default.
`savedWeather = none` models `localStorage.getItem` returning `null`;
the `s ≠ ""` conjunct models JavaScript string truthiness. -/
def getInitialWeatherMode (savedWeather : Option String) (currentHour : ℕ) (r : ℚ) :
    String :=
  match savedWeather with
  | some s => if s ≠ "" ∧ s ∈ WEATHER_MODES then s else timeBasedMode currentHour r
  | none => timeBasedMode currentHour r

/-- The mode list of `src/App.js` (line 212):
`WEATHER_MODES = ['sakura', 'fireflies', 'snow', 'rain']` — four modes,
without `'autumn'`. -/
def APP_WEATHER_MODES : List String := ["sakura", "fireflies", "snow", "rain"]

/-- The `useState` initializer of `weatherMode` in `src/App.js` (lines
231-237): a truthy stored member of that file's own 4-mode list wins,
otherwise the fixed mode `'sakura'`. -/
def appInitialWeatherMode (savedWeather : Option String) : String :=
  match savedWeather with
  | some s => if s ≠ "" ∧ s ∈ APP_WEATHER_MODES then s else "sakura"
  | none => "sakura"

/-! ## Autumn-leaf count distribution (src/components/AutumnLeaves.jsx) -/

/-- The `counts` `useMemo` of `AutumnLeavesComponent`: split `totalCount` into
(maple, oak, birch), maple and oak absorbing the remainder of division by 3.
The redistribution branch for `mapleCount + oakCount + birchCount > totalCount`
is embedded as written (it is unreachable, as proved below). -/
def leafCounts (totalCount : ℕ) : ℕ × ℕ × ℕ :=
  let baseCount := totalCount / 3
  let remainder := totalCount % 3
  let mapleCount := max 0 (baseCount + (if remainder > 0 then 1 else 0))
  let oakCount := max 0 (baseCount + (if remainder > 1 then 1 else 0))
  let birchCount := max 0 baseCount
  if totalCount = 0 then (0, 0, 0)
  else if mapleCount + oakCount + birchCount > totalCount then
    let m := if totalCount ≥ 1 then 1 else 0
    let o := if totalCount ≥ 2 then 1 else 0
    let b := if totalCount ≥ 3 then 1 else 0
    let totalAllocated := m + o + b
    if totalAllocated > totalCount then
      if o > 0 ∧ totalCount < 2 then (1, 0, 0)
      else if b > 0 ∧ totalCount < 3 then (m, o, 0)
      else (m, o, b)
    else (m, o, b)
  else (mapleCount, oakCount, birchCount)

/-! ## Real-valued model of the three.js math used by the integrators

`Math.sin`/`Math.cos`/`Math.sqrt`/`Math.atan2`/`Math.asin` are modelled by
their exact counterparts on `ℝ`; every `Math.random()` call site becomes an
explicit input of the step function. -/

noncomputable section

/-- A three.js `Vector3` / `Euler` value triple. -/
structure Vec3 where
  x : ℝ
  y : ℝ
  z : ℝ
  deriving DecidableEq

/-- A three.js `Color` RGB triple. -/
structure Color3 where
  r : ℝ
  g : ℝ
  b : ℝ
  deriving DecidableEq

/-- A three.js `Quaternion`. -/
structure Quat where
  x : ℝ
  y : ℝ
  z : ℝ
  w : ℝ
  deriving DecidableEq

/-- `Math.max(0, Math.min(1, v))` — the per-channel color clamp used at spawn. -/
def clamp01 (v : ℝ) : ℝ := max 0 (min 1 v)

/-- three.js `MathUtils.clamp(value, lo, hi) = Math.max(lo, Math.min(hi, value))`. -/
def clampR (v lo hi : ℝ) : ℝ := max lo (min hi v)

/-- JavaScript `Math.atan2(y, x)`. -/
def atan2 (y x : ℝ) : ℝ :=
  if 0 < x then Real.arctan (y / x)
  else if x < 0 then
    if 0 ≤ y then Real.arctan (y / x) + Real.pi else Real.arctan (y / x) - Real.pi
  else if 0 < y then Real.pi / 2
  else if y < 0 then -(Real.pi / 2)
  else 0

/-- three.js `Quaternion.setFromEuler` for order `'XYZ'`. -/
def quatFromEulerXYZ (ex ey ez : ℝ) : Quat :=
  let c1 := Real.cos (ex / 2)
  let c2 := Real.cos (ey / 2)
  let c3 := Real.cos (ez / 2)
  let s1 := Real.sin (ex / 2)
  let s2 := Real.sin (ey / 2)
  let s3 := Real.sin (ez / 2)
  ⟨s1 * c2 * c3 + c1 * s2 * s3,
   c1 * s2 * c3 - s1 * c2 * s3,
   c1 * c2 * s3 + s1 * s2 * c3,
   c1 * c2 * c3 - s1 * s2 * s3⟩

/-- three.js `Euler.setFromQuaternion(q, 'XYZ')`: build the rotation matrix
from the quaternion (`Matrix4.makeRotationFromQuaternion`) and extract XYZ
Euler angles (`Euler.setFromRotationMatrix`). -/
def eulerFromQuatXYZ (q : Quat) : Vec3 :=
  let xx := q.x * (q.x + q.x)
  let xy := q.x * (q.y + q.y)
  let xz := q.x * (q.z + q.z)
  let yy := q.y * (q.y + q.y)
  let yz := q.y * (q.z + q.z)
  let zz := q.z * (q.z + q.z)
  let wx := q.w * (q.x + q.x)
  let wy := q.w * (q.y + q.y)
  let wz := q.w * (q.z + q.z)
  let m11 := 1 - (yy + zz)
  let m12 := xy - wz
  let m13 := xz + wy
  let m22 := 1 - (xx + zz)
  let m23 := yz - wx
  let m32 := yz + wx
  let m33 := 1 - (xx + yy)
  let ey := Real.arcsin (clampR m13 (-1) 1)
  if |m13| < 0.9999999 then ⟨atan2 (-m23) m33, ey, atan2 (-m12) m11⟩
  else ⟨atan2 m32 m22, ey, 0⟩

/-- three.js `Quaternion.normalize()`: zero length yields the identity. -/
def normalizeQuat (q : Quat) : Quat :=
  let l := Real.sqrt (q.x * q.x + q.y * q.y + q.z * q.z + q.w * q.w)
  if l = 0 then ⟨0, 0, 0, 1⟩ else ⟨q.x / l, q.y / l, q.z / l, q.w / l⟩

/-- three.js `Vector3.normalize()`: `divideScalar(length() || 1)`. -/
def normalizeVec3 (v : Vec3) : Vec3 :=
  let l := Real.sqrt (v.x * v.x + v.y * v.y + v.z * v.z)
  let d := if l = 0 then 1 else l
  ⟨v.x / d, v.y / d, v.z / d⟩

/-- JavaScript `Number.EPSILON = 2 ^ (-52)`. -/
def epsJS : ℝ := 1 / 2 ^ 52

/-- three.js `Quaternion.slerp(qb, t)` applied to `q`. -/
def slerp (q qb : Quat) (t : ℝ) : Quat :=
  if t = 0 then q
  else if t = 1 then qb
  else
    let cos0 := q.w * qb.w + q.x * qb.x + q.y * qb.y + q.z * qb.z
    let work : Quat := if cos0 < 0 then ⟨-qb.x, -qb.y, -qb.z, -qb.w⟩ else qb
    let cosHalfTheta := if cos0 < 0 then -cos0 else cos0
    if 1 ≤ cosHalfTheta then q
    else
      let sqrSinHalfTheta := 1 - cosHalfTheta * cosHalfTheta
      if sqrSinHalfTheta ≤ epsJS then
        let s := 1 - t
        normalizeQuat
          ⟨s * q.x + t * work.x, s * q.y + t * work.y,
           s * q.z + t * work.z, s * q.w + t * work.w⟩
      else
        let sinHalfTheta := Real.sqrt sqrSinHalfTheta
        let halfTheta := atan2 sinHalfTheta cosHalfTheta
        let ratioA := Real.sin ((1 - t) * halfTheta) / sinHalfTheta
        let ratioB := Real.sin (t * halfTheta) / sinHalfTheta
        ⟨q.x * ratioA + work.x * ratioB,
         q.y * ratioA + work.y * ratioB,
         q.z * ratioA + work.z * ratioB,
         q.w * ratioA + work.w * ratioB⟩

/-! ## Spawn-time color jitter (FloatingParticles.jsx 87-93, InstancedFallingItems 85-92,
snowfall.jsx 66-70) -/

/-- One channel of the spawn jitter: `c += (Math.random() - 0.5) * 0.08` then
clamp to `[0,1]` (FloatingParticles.jsx 88-93, InstancedFallingItems 87-92,
and FogVolume.jsx 159-165 with `FOG_COLOR_VARIATION = 0.08`). -/
def jitterChannel (c r : ℝ) : ℝ := clamp01 (c + (r - 0.5) * 0.08)

/-- The spawn color of a sakura petal / falling leaf: per-channel jitter of the
palette pick, clamped to `[0,1]`. -/
def spawnJitteredColor (base : Color3) (r1 r2 r3 : ℝ) : Color3 :=
  ⟨jitterChannel base.r r1, jitterChannel base.g r2, jitterChannel base.b r3⟩

/-- The snowflake spawn color (snowfall.jsx): one shared brightness delta
`(Math.random() - 0.5) * 0.1` added to all three channels, clamped to `[0,1]`. -/
def snowSpawnColor (base : Color3) (r : ℝ) : Color3 :=
  let brightnessVariation := (r - 0.5) * 0.1
  ⟨clamp01 (base.r + brightnessVariation),
   clamp01 (base.g + brightnessVariation),
   clamp01 (base.b + brightnessVariation)⟩

/-- The firefly palette (`Fireflies.jsx`), hex channels normalized by 255:
`#ADFF2F`, `#9ACD32`, `#CCFF00`, `#DAA520`; fireflies apply no spawn jitter. -/
def fireflyColors : List Color3 :=
  [⟨173 / 255, 255 / 255, 47 / 255⟩,
   ⟨154 / 255, 205 / 255, 50 / 255⟩,
   ⟨204 / 255, 255 / 255, 0 / 255⟩,
   ⟨218 / 255, 165 / 255, 32 / 255⟩]

/-- The raindrop palette (both Rainfall versions, part_009 29-34 and
part_010 26-31): `new THREE.Color(hex).multiplyScalar(0.9)` for
`#c8d1e0`, `#d2dae6`, `#bcc7d7`, `#d8e0ea`; raindrops store an unjittered
palette pick at spawn. -/
def raindropColors : List Color3 :=
  [⟨200 / 255 * 0.9, 209 / 255 * 0.9, 224 / 255 * 0.9⟩,
   ⟨210 / 255 * 0.9, 218 / 255 * 0.9, 230 / 255 * 0.9⟩,
   ⟨188 / 255 * 0.9, 199 / 255 * 0.9, 215 / 255 * 0.9⟩,
   ⟨216 / 255 * 0.9, 224 / 255 * 0.9, 234 / 255 * 0.9⟩]

/-! ## Per-frame integrators of the falling species -/

/-- The per-particle record of `FloatingParticles.jsx` / `snowfall.jsx`
(velocity parameters and color fixed at spawn; the `useFrame` loop only
reads them). -/
structure FallingParticle where
  scale : ℝ
  factorY : ℝ
  speedFactor : ℝ
  swayFactorX : ℝ
  rotSpeedX : ℝ
  rotSpeedY : ℝ
  rotSpeedZ : ℝ
  initialColor : Color3

/-- The mutable per-instance state carried in the instance matrix: the
decomposed position / rotation quaternion / scale of instance `i`, together
with the (read-only) particle record driving it. -/
structure FallingState where
  particle : FallingParticle
  pos : Vec3
  quat : Quat
  scl : Vec3

/-- The inputs one `useFrame` tick supplies to a falling-species instance:
`delta`, `clock.elapsedTime`, the viewport read fresh from `state.viewport`
this frame, and the `Math.random()` draws of the boundary-reset branch in
call order (`rY` for the new y, `rX` for the new x, `rZ` for the new z,
plus `rE1 rE2 rE3` for the reset Euler draw of `InstancedFallingItems`). -/
structure FrameTick where
  delta : ℝ
  time : ℝ
  viewportWidth : ℝ
  viewportHeight : ℝ
  rY : ℝ
  rX : ℝ
  rZ : ℝ
  rE1 : ℝ
  rE2 : ℝ
  rE3 : ℝ

/-- The body of the `useFrame` per-instance loop of `FloatingParticles.jsx`
(lines 215-266) for instance `i`: decompose, fall, sway, tumble, boundary
reset, recompose. -/
def floatingStep (i : ℕ) (s : FallingState) (f : FrameTick) : FallingState :=
  let topEdge := f.viewportHeight / 2
  let bottomEdge := -topEdge
  let boundaryY := bottomEdge - 2
  let p := s.particle
  let fallSpeed := p.factorY * p.speedFactor * 60 * f.delta
  let swaySpeed :=
    Real.sin (f.time * 0.3 + (i : ℝ) * 0.5) * p.swayFactorX * p.speedFactor * 20 * f.delta
  let pos1 : Vec3 := ⟨s.pos.x + swaySpeed, s.pos.y - fallSpeed, s.pos.z⟩
  let rot0 := eulerFromQuatXYZ s.quat
  let rot1 : Vec3 :=
    ⟨rot0.x + p.rotSpeedX * 60 * f.delta,
     rot0.y + p.rotSpeedY * 60 * f.delta,
     rot0.z + p.rotSpeedZ * 60 * f.delta⟩
  let quat1 := quatFromEulerXYZ rot1.x rot1.y rot1.z
  let pos2 : Vec3 :=
    if pos1.y < boundaryY then
      ⟨(f.rX - 0.5) * f.viewportWidth * 1.6, topEdge + 1 + f.rY * 3, (f.rZ - 0.5) * 15⟩
    else pos1
  ⟨p, pos2, quat1, s.scl⟩

/-- The body of the `useFrame` per-instance loop of `snowfall.jsx`
(lines 186-228): identical shape with snow constants (sway frequency 0.2,
sway magnitude 30, reset depth spread 16). -/
def snowfallStep (i : ℕ) (s : FallingState) (f : FrameTick) : FallingState :=
  let topEdge := f.viewportHeight / 2
  let bottomEdge := -topEdge
  let boundaryY := bottomEdge - 2
  let p := s.particle
  let fallSpeed := p.factorY * p.speedFactor * 60 * f.delta
  let swaySpeed :=
    Real.sin (f.time * 0.2 + (i : ℝ) * 0.5) * p.swayFactorX * p.speedFactor * 30 * f.delta
  let pos1 : Vec3 := ⟨s.pos.x + swaySpeed, s.pos.y - fallSpeed, s.pos.z⟩
  let rot0 := eulerFromQuatXYZ s.quat
  let rot1 : Vec3 :=
    ⟨rot0.x + p.rotSpeedX * 60 * f.delta,
     rot0.y + p.rotSpeedY * 60 * f.delta,
     rot0.z + p.rotSpeedZ * 60 * f.delta⟩
  let quat1 := quatFromEulerXYZ rot1.x rot1.y rot1.z
  let pos2 : Vec3 :=
    if pos1.y < boundaryY then
      ⟨(f.rX - 0.5) * f.viewportWidth * 1.6, topEdge + 1 + f.rY * 3, (f.rZ - 0.5) * 16⟩
    else pos1
  ⟨p, pos2, quat1, s.scl⟩

/-- The physics configuration of `InstancedFallingItems.jsx` (defaults merged
with per-species overrides). -/
structure FallingConfig where
  initialDepthSpread : ℝ
  initialHorizontalSpreadFactor : ℝ
  initialVerticalSpreadFactor : ℝ
  resetBoundaryOffset : ℝ
  resetVerticalSpread : ℝ

/-- The default `config` of `InstancedFallingItems.jsx` (lines 27-38). -/
def defaultFallingConfig : FallingConfig := ⟨16, 1.8, 1.1, 2, 3⟩

/-- The body of the `useFrame` per-instance loop of `InstancedFallingItems.jsx`
(lines 213-274): like `floatingStep` but with `dt = Math.min(delta, 0.1)`,
config-driven reset constants, and a reset that additionally slerps the
rotation 10% toward a random orientation. -/
def instancedFallingStep (cfg : FallingConfig) (i : ℕ) (s : FallingState) (f : FrameTick) :
    FallingState :=
  let topEdge := f.viewportHeight / 2
  let bottomEdge := -topEdge
  let boundaryY := bottomEdge - cfg.resetBoundaryOffset
  let dt := min f.delta 0.1
  let p := s.particle
  let fallSpeed := p.factorY * p.speedFactor * 60 * dt
  let swaySpeed :=
    Real.sin (f.time * 0.4 + (i : ℝ) * 0.6) * p.swayFactorX * p.speedFactor * 30 * dt
  let pos1 : Vec3 := ⟨s.pos.x + swaySpeed, s.pos.y - fallSpeed, s.pos.z⟩
  let rot0 := eulerFromQuatXYZ s.quat
  let rot1 : Vec3 :=
    ⟨rot0.x + p.rotSpeedX * 60 * dt,
     rot0.y + p.rotSpeedY * 60 * dt,
     rot0.z + p.rotSpeedZ * 60 * dt⟩
  let quat1 := quatFromEulerXYZ rot1.x rot1.y rot1.z
  if pos1.y < boundaryY then
    let pos2 : Vec3 :=
      ⟨(f.rX - 0.5) * f.viewportWidth * (cfg.initialHorizontalSpreadFactor * 0.9),
       topEdge + 1 + f.rY * cfg.resetVerticalSpread,
       (f.rZ - 0.5) * cfg.initialDepthSpread⟩
    let resetQ :=
      quatFromEulerXYZ (f.rE1 * Real.pi * 0.5) (f.rE2 * Real.pi * 2) (f.rE3 * Real.pi * 0.5)
    ⟨p, pos2, slerp quat1 resetQ 0.1, s.scl⟩
  else ⟨p, pos1, quat1, s.scl⟩

/-! ## Per-frame integrator of the fireflies (Fireflies.jsx 94-186) -/

/-- The per-particle record of `Fireflies.jsx` — the `useFrame` loop mutates
`driftDirection` (occasional wobble) and `currentPosition`, but never
`phase`, `flickerSpeed` or `baseColor`. -/
structure FireflyParticle where
  baseScale : ℝ
  driftSpeed : ℝ
  driftDirection : Vec3
  phase : ℝ
  flickerSpeed : ℝ
  baseColor : Color3
  currentPosition : Vec3

/-- The mutable per-instance state of a firefly: the decomposed instance
matrix plus the particle record. -/
structure FireflyState where
  particle : FireflyParticle
  pos : Vec3
  quat : Quat
  scl : Vec3

/-- Inputs of one firefly `useFrame` tick: `delta`, `clock.elapsedTime`,
the hook viewport, whether the geometry has a color attribute, and the
`Math.random()` draws in call order (`rWobble` for the 0.005 wobble chance,
`rW1..rW3` for the wobble deltas, `rEdge` for the reset-edge pick,
`rReset` for the reset x-or-y coordinate, `rResetZ` for the reset z). -/
structure FireflyTick where
  delta : ℝ
  time : ℝ
  viewportWidth : ℝ
  viewportHeight : ℝ
  hasColor : Bool
  rWobble : ℝ
  rW1 : ℝ
  rW2 : ℝ
  rW3 : ℝ
  rEdge : ℝ
  rReset : ℝ
  rResetZ : ℝ

/-- The body of the firefly `useFrame` per-instance loop: drift, occasional
direction wobble, pulse-modulated scale, brightness-modulated color write
(unclamped), boundary reset to a random edge. Returns the updated state and
the RGB value written into the instance color buffer (if present). -/
def firefliesStep (s : FireflyState) (f : FireflyTick) : FireflyState × Option Color3 :=
  let p := s.particle
  let boundaryX := f.viewportWidth / 2 * 1.3
  let boundaryY := f.viewportHeight / 2 * 1.3
  let boundaryZ : ℝ := 12
  let driftAmount := p.driftSpeed * f.delta
  let pos1 : Vec3 :=
    ⟨s.pos.x + p.driftDirection.x * driftAmount,
     s.pos.y + p.driftDirection.y * driftAmount,
     s.pos.z + p.driftDirection.z * driftAmount⟩
  let dir1 :=
    if f.rWobble < 0.005 then
      normalizeVec3
        ⟨p.driftDirection.x + (f.rW1 - 0.5) * 0.1,
         p.driftDirection.y + (f.rW2 - 0.5) * 0.1,
         p.driftDirection.z + (f.rW3 - 0.5) * 0.05⟩
    else p.driftDirection
  let pulse := (Real.sin (f.time * p.flickerSpeed + p.phase) + 1) / 2
  let currentScale := p.baseScale * (0.6 + pulse * 0.8)
  let colorWrite : Option Color3 :=
    if f.hasColor then
      some ⟨p.baseColor.r * (0.7 + pulse * 0.6),
            p.baseColor.g * (0.7 + pulse * 0.6),
            p.baseColor.b * (0.7 + pulse * 0.6)⟩
    else none
  let pos2 : Vec3 :=
    if boundaryX < |pos1.x| ∨ boundaryY < |pos1.y| ∨ boundaryZ < |pos1.z| then
      let edge := ⌊f.rEdge * 4⌋
      let resetX :=
        if edge = 0 then -boundaryX * 0.95
        else if edge = 1 then boundaryX * 0.95
        else (f.rReset - 0.5) * f.viewportWidth * 1.1
      let resetY :=
        if edge = 0 ∨ edge = 1 then (f.rReset - 0.5) * f.viewportHeight * 1.1
        else if edge = 2 then -boundaryY * 0.95
        else boundaryY * 0.95
      ⟨resetX, resetY, (f.rResetZ - 0.5) * 8⟩
    else pos1
  (⟨{ p with driftDirection := dir1, currentPosition := pos2 }, pos2, s.quat,
     ⟨currentScale, currentScale, currentScale⟩⟩,
   colorWrite)

/-! ## Concrete sample inputs used to instantiate the theorems -/

/-- A sample falling particle with in-range spawn parameters. -/
def sampleParticle : FallingParticle := ⟨1/10, 1/2, 1/100, 1/5, 0, 0, 0, ⟨1, 1, 1⟩⟩

/-- A falling instance far below the reset boundary. -/
def sampleResetState : FallingState := ⟨sampleParticle, ⟨0, -100, 0⟩, ⟨0, 0, 0, 1⟩, ⟨1, 1, 1⟩⟩

/-- A falling instance well inside the viewport (no reset). -/
def sampleDriftState : FallingState := ⟨sampleParticle, ⟨0, 0, 0⟩, ⟨0, 0, 0, 1⟩, ⟨1, 1, 1⟩⟩

/-- A typical frame tick: `delta = 0.016`, 20x10 viewport, mid-range draws. -/
def sampleTick : FrameTick := ⟨2/125, 0, 20, 10, 1/2, 1/2, 1/2, 0, 0, 0⟩

/-- A lag-spike frame tick with `delta = 0.2`, above the 0.1 clamp of
`InstancedFallingItems`. -/
def lagSpikeTick : FrameTick := ⟨1/5, 0, 20, 10, 1/2, 1/2, 1/2, 0, 0, 0⟩

/-- A non-tumbling falling instance (all rotation rates zero, identity
orientation) below the reset boundary. -/
def spinFreeResetState : FallingState :=
  ⟨⟨1/10, 0, 0, 0, 0, 0, 0, ⟨1, 0, 0⟩⟩, ⟨0, -100, 0⟩, ⟨0, 0, 0, 1⟩, ⟨1, 1, 1⟩⟩

/-- A frame tick whose reset-Euler draws are `(0, 1/2, 0)`, i.e. a reset
orientation of `(0, π, 0)`. -/
def yflipResetTick : FrameTick := ⟨2/125, 0, 20, 10, 0, 0, 0, 0, 1/2, 0⟩

/-- A firefly whose base color is the palette pick `#ADFF2F` (green channel
exactly 1) and whose `phase` is `π/2`. -/
def sampleFirefly : FireflyParticle :=
  ⟨1, 1/10, ⟨1, 0, 0⟩, Real.pi / 2, 1, ⟨173/255, 1, 47/255⟩, ⟨0, 0, 0⟩⟩

/-- The firefly instance state for `sampleFirefly`, at the origin. -/
def sampleFireflyState : FireflyState := ⟨sampleFirefly, ⟨0, 0, 0⟩, ⟨0, 0, 0, 1⟩, ⟨1, 1, 1⟩⟩

/-- A firefly frame tick at `clock.elapsedTime = 0` with the color attribute
present and no wobble draw. -/
def sampleFireflyTick : FireflyTick := ⟨2/125, 0, 15, 10, true, 1/2, 0, 0, 0, 0, 0, 0⟩

end

/-! ## Instance-buffer event traces of one `useFrame` tick

The order of buffer operations inside one frame is modelled as a list of
events: the loop writes each instance, and the `needsUpdate` flags are set
once after the loop. -/

/-- One observable buffer operation of a `useFrame` tick. -/
inductive BufferEvent where
  | writeMatrix (i : ℕ)
  | writeColor (i : ℕ)
  | flagMatrix
  | flagColor
  deriving DecidableEq

/-- The buffer-event trace of one `FloatingParticles.jsx` `useFrame` tick past
its guard (lines 215-273): `setMatrixAt(i, …)` for `i = 0..count-1`, then
`instanceMatrix.needsUpdate = true` once, only if some matrix changed
(`matrixNeedsUpdate`, true exactly when the loop ran at least once). -/
def floatingFrameTrace (count : ℕ) : List BufferEvent :=
  ((List.range count).map BufferEvent.writeMatrix) ++
    if 0 < count then [BufferEvent.flagMatrix] else []

/-- The buffer-event trace of one `Fireflies.jsx` `useFrame` tick past its
guard (lines 108-185): per instance a color-buffer write (if the color
attribute exists) followed by `setMatrixAt`; after the loop,
`instanceMatrix.needsUpdate = true` once, then `colorAttribute.needsUpdate =
true` once if the attribute exists. -/
def firefliesFrameTrace (count : ℕ) (hasColor : Bool) : List BufferEvent :=
  ((List.range count).flatMap fun i =>
      (if hasColor then [BufferEvent.writeColor i] else []) ++ [BufferEvent.writeMatrix i]) ++
    [BufferEvent.flagMatrix] ++
    (if hasColor then [BufferEvent.flagColor] else [])

/-! ## Frame-entry guards (the early-exit checks of each `useFrame`) -/

/-- One `FloatingParticles.jsx` frame (lines 199-273):
`if (!mesh || !mesh.instanceMatrix || !particles || particles.length === 0)
return;` then the update loop. -/
def floatingFrame (meshPresent instMatrixPresent particlesPresent : Bool)
    (len count : ℕ) : List BufferEvent :=
  if meshPresent = false ∨ instMatrixPresent = false ∨ particlesPresent = false ∨ len = 0 then
    []
  else floatingFrameTrace count

/-- One `snowfall.jsx` frame (lines 166-236): the guard
`if (!mesh?.instanceMatrix || !particles || particles.length === 0) return;`
(a missing mesh also makes `mesh?.instanceMatrix` nullish) then a loop of the
same shape as `FloatingParticles`. -/
def snowfallFrame (meshPresent instMatrixPresent particlesPresent : Bool)
    (len count : ℕ) : List BufferEvent :=
  if (meshPresent && instMatrixPresent) = false ∨ particlesPresent = false ∨ len = 0 then
    []
  else floatingFrameTrace count

/-- One `InstancedFallingItems.jsx` frame (lines 189-283): the guard also
rejects a mesh whose `count` does not match the configured count. -/
def instancedFrame (meshPresent instMatrixPresent particlesPresent : Bool)
    (len meshCount count : ℕ) : List BufferEvent :=
  if meshPresent = false ∨ instMatrixPresent = false ∨ particlesPresent = false ∨ len = 0 ∨
      meshCount ≠ count then
    []
  else floatingFrameTrace meshCount

/-- The buffer-event trace of one `Rainfall.jsx` (part_009) `useFrame` tick
past its guard (lines 191-309): the loop writes each instance's color,
then its matrix; after the loop each `needsUpdate` flag is set once, only if
the loop ran (`matrixNeedsUpdate` / `colorNeedsUpdate`). -/
def rainFrameTraceA (count : ℕ) : List BufferEvent :=
  ((List.range count).flatMap fun i =>
      [BufferEvent.writeColor i, BufferEvent.writeMatrix i]) ++
    (if 0 < count then [BufferEvent.flagMatrix] else []) ++
    (if 0 < count then [BufferEvent.flagColor] else [])

/-- The buffer-event trace of one `Rainfall.jsx` (part_010) `useFrame` tick
past its guards (lines 134-222): per-instance color then matrix writes;
after the loop `instanceMatrix.needsUpdate` and (the already-checked) color
attribute's `needsUpdate` are each set once. -/
def rainFrameTraceB (count : ℕ) : List BufferEvent :=
  ((List.range count).flatMap fun i =>
      [BufferEvent.writeColor i, BufferEvent.writeMatrix i]) ++
    [BufferEvent.flagMatrix, BufferEvent.flagColor]

/-- One `Rainfall.jsx` (part_009) frame: the guard (line 195) is
`if (!mesh?.instanceMatrix || !mesh.geometry?.attributes?.color ||
!particles || particles.length === 0) return;` — a missing mesh also makes
`mesh?.instanceMatrix` nullish. -/
def rainfallFrameA (meshPresent instMatrixPresent colorAttrPresent particlesPresent : Bool)
    (len count : ℕ) : List BufferEvent :=
  if (meshPresent && instMatrixPresent) = false ∨ colorAttrPresent = false ∨
      particlesPresent = false ∨ len = 0 then []
  else rainFrameTraceA count

/-- One `Rainfall.jsx` (part_010) frame: first guard (line 135)
`if (!meshRef.current?.instanceMatrix || !particles ||
particles.length === 0) return;`, then a second guard (lines 137-140) on the
color attribute. -/
def rainfallFrameB (meshPresent instMatrixPresent colorAttrPresent particlesPresent : Bool)
    (len count : ℕ) : List BufferEvent :=
  if (meshPresent && instMatrixPresent) = false ∨ particlesPresent = false ∨ len = 0 then []
  else if colorAttrPresent = false then []
  else rainFrameTraceB count

/-- One `FogVolume.jsx` frame (lines 281-379): the guard (line 284) is
`if (!mesh || !mesh.instanceMatrix || !particles || particles.length === 0)
return;`; the loop and flag structure matches `FloatingParticles` (matrix
writes, then one conditional matrix flag; colors are static after init). -/
def fogFrame (meshPresent instMatrixPresent particlesPresent : Bool)
    (len count : ℕ) : List BufferEvent :=
  if meshPresent = false ∨ instMatrixPresent = false ∨ particlesPresent = false ∨ len = 0 then
    []
  else floatingFrameTrace count

/-- One `Fireflies.jsx` frame (lines 94-186): the guard checks only
`!meshRef.current || !particles || particles.length === 0`; if the instance
matrix buffer is missing while the mesh is present and particles exist, the
loop's first `mesh.getMatrixAt(0, …)` dereferences the missing buffer — a
thrown `TypeError`, modelled as `Except.error`. -/
def firefliesFrame (meshPresent instMatrixPresent particlesPresent : Bool)
    (len count : ℕ) (hasColor : Bool) : Except Unit (List BufferEvent) :=
  if meshPresent = false ∨ particlesPresent = false ∨ len = 0 then Except.ok []
  else if instMatrixPresent = false then Except.error ()
  else Except.ok (firefliesFrameTrace count hasColor)

/-! ## Theorems: weather-mode controller and leaf counts -/

theorem leafCounts_eq (n : ℕ) :
    leafCounts n =
      (n / 3 + (if n % 3 > 0 then 1 else 0), n / 3 + (if n % 3 > 1 then 1 else 0), n / 3) := by
  simp only [leafCounts, Nat.zero_max]
  split_ifs <;> simp only [Prod.mk.injEq] <;> omega

/-- C4: starting from mode `'sakura'`, five applications of `toggleWeatherMode`
yield the sequence `['fireflies','snow','rain','autumn','sakura']` (cyclic
successor over the 5-mode list), and the derived dark-theme flag is true
exactly when the current mode equals `'fireflies'`. -/
theorem toggle_cycle_and_dark_flag :
    (List.range 5).map (fun k => toggleWeatherMode^[k + 1] "sakura") =
        ["fireflies", "snow", "rain", "autumn", "sakura"] ∧
      ∀ m : String, isEffectivelyDarkMode m = true ↔ m = "fireflies" := by
  refine ⟨by decide, fun m => ?_⟩
  simp [isEffectivelyDarkMode]

/-- C5 (amended): on cold start with a stored string that is not a valid mode,
the `App.jsx` controller (`getInitialWeatherMode`) falls back to the
time-of-day default, while the `src/App.js` initializer validates against its
own 4-mode list `['sakura','fireflies','snow','rain']` and falls back to the
fixed mode `'sakura'` for any other stored value (including `'autumn'`);
neither ever yields a value outside its own mode enum, and a stored value
that is a member of the respective file's enum is returned as-is. -/
theorem invalid_stored_mode_fallback (s : String) (hour : ℕ) (r : ℚ)
    (hinvalid : s ∉ WEATHER_MODES) :
    getInitialWeatherMode (some s) hour r = timeBasedMode hour r ∧
      appInitialWeatherMode (some s) = "sakura" ∧
      getInitialWeatherMode (some s) hour r ∈ WEATHER_MODES ∧
      appInitialWeatherMode (some s) ∈ APP_WEATHER_MODES ∧
      (∀ v ∈ WEATHER_MODES, getInitialWeatherMode (some v) hour r = v) ∧
      ∀ v ∈ APP_WEATHER_MODES, appInitialWeatherMode (some v) = v := by
  have hinvalidApp : s ∉ APP_WEATHER_MODES := by
    intro hmem
    exact hinvalid (by fin_cases hmem <;> decide)
  have htime : timeBasedMode hour r ∈ WEATHER_MODES := by
    unfold timeBasedMode WEATHER_MODES
    split_ifs <;> simp
  have hget : getInitialWeatherMode (some s) hour r = timeBasedMode hour r := by
    simp only [getInitialWeatherMode]
    rw [if_neg]
    rintro ⟨-, hmem⟩
    exact hinvalid hmem
  have happ : appInitialWeatherMode (some s) = "sakura" := by
    simp only [appInitialWeatherMode]
    rw [if_neg]
    rintro ⟨-, hmem⟩
    exact hinvalidApp hmem
  refine ⟨hget, happ, hget ▸ htime, by rw [happ]; decide, fun v hv => ?_, fun v hv => ?_⟩
  · fin_cases hv <;>
      exact by simp only [getInitialWeatherMode]; rw [if_pos (by decide)]
  · fin_cases hv <;>
      exact by simp only [appInitialWeatherMode]; rw [if_pos (by decide)]

/-- Witness for C5 at the stored value `"bogus-mode"` and hour 3. -/
theorem invalid_stored_mode_fallback_witness :
    getInitialWeatherMode (some "bogus-mode") 3 0 = timeBasedMode 3 0 ∧
      appInitialWeatherMode (some "bogus-mode") = "sakura" ∧
      getInitialWeatherMode (some "bogus-mode") 3 0 ∈ WEATHER_MODES ∧
      appInitialWeatherMode (some "bogus-mode") ∈ APP_WEATHER_MODES ∧
      (∀ v ∈ WEATHER_MODES, getInitialWeatherMode (some v) 3 0 = v) ∧
      ∀ v ∈ APP_WEATHER_MODES, appInitialWeatherMode (some v) = v :=
  invalid_stored_mode_fallback "bogus-mode" 3 0 (by decide)

/-- C5 counterexample: the `src/App.js` initializer does not fall back to the
time-of-day default — with stored `"bogus-mode"` at hour 22 it returns
`'sakura'`, while the time-of-day default at hour 22 is `'fireflies'`; and
because its own mode list lacks `'autumn'`, even the valid 5-mode value
`'autumn'` is not returned as-is but replaced by `'sakura'`. -/
theorem app_js_fallback_not_time_based :
    appInitialWeatherMode (some "bogus-mode") = "sakura" ∧
      timeBasedMode 22 0 = "fireflies" ∧
      appInitialWeatherMode (some "bogus-mode") ≠ timeBasedMode 22 0 ∧
      "autumn" ∈ WEATHER_MODES ∧
      appInitialWeatherMode (some "autumn") = "sakura" := by
  decide

/-- C9: for every totalCount, the three leaf-species counts are non-negative,
sum to exactly totalCount, satisfy maple ≥ oak ≥ birch, and each lies within
1 of `⌊totalCount/3⌋`. -/
theorem leaf_count_split (n : ℕ) :
    (leafCounts n).1 + (leafCounts n).2.1 + (leafCounts n).2.2 = n ∧
      (leafCounts n).2.1 ≤ (leafCounts n).1 ∧
      (leafCounts n).2.2 ≤ (leafCounts n).2.1 ∧
      (leafCounts n).1 ≤ n / 3 + 1 ∧ n / 3 ≤ (leafCounts n).1 + 1 ∧
      (leafCounts n).2.1 ≤ n / 3 + 1 ∧ n / 3 ≤ (leafCounts n).2.1 + 1 ∧
      (leafCounts n).2.2 ≤ n / 3 + 1 ∧ n / 3 ≤ (leafCounts n).2.2 + 1 := by
  rw [leafCounts_eq]
  dsimp only
  split_ifs <;> omega

/-! ## Evaluation lemmas for the three.js math model -/

lemma atan2_zero_one : atan2 0 1 = 0 := by
  simp [atan2, Real.arctan_zero]

lemma atan2_one_zero : atan2 1 0 = Real.pi / 2 := by
  norm_num [atan2]

lemma eulerFromQuatXYZ_id : eulerFromQuatXYZ ⟨0, 0, 0, 1⟩ = ⟨0, 0, 0⟩ := by
  simp only [eulerFromQuatXYZ, clampR]
  norm_num [atan2_zero_one, Real.arcsin_zero]

lemma quatFromEulerXYZ_zero : quatFromEulerXYZ 0 0 0 = ⟨0, 0, 0, 1⟩ := by
  simp only [quatFromEulerXYZ]
  norm_num

lemma quatFromEulerXYZ_ypi : quatFromEulerXYZ 0 Real.pi 0 = ⟨0, 1, 0, 0⟩ := by
  simp only [quatFromEulerXYZ]
  norm_num [Real.cos_pi_div_two, Real.sin_pi_div_two]

lemma slerp_id_to_yflip :
    slerp ⟨0, 0, 0, 1⟩ ⟨0, 1, 0, 0⟩ 0.1 =
      ⟨0, Real.sin (0.1 * (Real.pi / 2)), 0, Real.sin ((1 - 0.1) * (Real.pi / 2))⟩ := by
  rw [slerp]
  norm_num [epsJS, atan2_one_zero, Real.sqrt_one]

/-! ## Branch lemmas for the falling-species steps -/

lemma floatingStep_particle (i : ℕ) (s : FallingState) (f : FrameTick) :
    (floatingStep i s f).particle = s.particle := rfl

lemma floatingStep_scl (i : ℕ) (s : FallingState) (f : FrameTick) :
    (floatingStep i s f).scl = s.scl := rfl

lemma floatingStep_quat (i : ℕ) (s : FallingState) (f : FrameTick) :
    (floatingStep i s f).quat =
      quatFromEulerXYZ
        ((eulerFromQuatXYZ s.quat).x + s.particle.rotSpeedX * 60 * f.delta)
        ((eulerFromQuatXYZ s.quat).y + s.particle.rotSpeedY * 60 * f.delta)
        ((eulerFromQuatXYZ s.quat).z + s.particle.rotSpeedZ * 60 * f.delta) := rfl

lemma floatingStep_pos_reset (i : ℕ) (s : FallingState) (f : FrameTick)
    (h : s.pos.y - s.particle.factorY * s.particle.speedFactor * 60 * f.delta <
      -(f.viewportHeight / 2) - 2) :
    (floatingStep i s f).pos =
      ⟨(f.rX - 0.5) * f.viewportWidth * 1.6, f.viewportHeight / 2 + 1 + f.rY * 3,
        (f.rZ - 0.5) * 15⟩ := by
  simp only [floatingStep]
  rw [if_pos (by linarith)]

lemma floatingStep_pos_no_reset (i : ℕ) (s : FallingState) (f : FrameTick)
    (h : ¬(s.pos.y - s.particle.factorY * s.particle.speedFactor * 60 * f.delta <
      -(f.viewportHeight / 2) - 2)) :
    (floatingStep i s f).pos =
      ⟨s.pos.x +
          Real.sin (f.time * 0.3 + (i : ℝ) * 0.5) * s.particle.swayFactorX *
            s.particle.speedFactor * 20 * f.delta,
        s.pos.y - s.particle.factorY * s.particle.speedFactor * 60 * f.delta, s.pos.z⟩ := by
  simp only [floatingStep]
  rw [if_neg (by linarith)]

lemma snowfallStep_particle (i : ℕ) (s : FallingState) (f : FrameTick) :
    (snowfallStep i s f).particle = s.particle := rfl

lemma snowfallStep_scl (i : ℕ) (s : FallingState) (f : FrameTick) :
    (snowfallStep i s f).scl = s.scl := rfl

lemma snowfallStep_quat (i : ℕ) (s : FallingState) (f : FrameTick) :
    (snowfallStep i s f).quat =
      quatFromEulerXYZ
        ((eulerFromQuatXYZ s.quat).x + s.particle.rotSpeedX * 60 * f.delta)
        ((eulerFromQuatXYZ s.quat).y + s.particle.rotSpeedY * 60 * f.delta)
        ((eulerFromQuatXYZ s.quat).z + s.particle.rotSpeedZ * 60 * f.delta) := rfl

lemma snowfallStep_pos_reset (i : ℕ) (s : FallingState) (f : FrameTick)
    (h : s.pos.y - s.particle.factorY * s.particle.speedFactor * 60 * f.delta <
      -(f.viewportHeight / 2) - 2) :
    (snowfallStep i s f).pos =
      ⟨(f.rX - 0.5) * f.viewportWidth * 1.6, f.viewportHeight / 2 + 1 + f.rY * 3,
        (f.rZ - 0.5) * 16⟩ := by
  simp only [snowfallStep]
  rw [if_pos (by linarith)]

lemma instancedFallingStep_particle (cfg : FallingConfig) (i : ℕ) (s : FallingState)
    (f : FrameTick) : (instancedFallingStep cfg i s f).particle = s.particle := by
  simp only [instancedFallingStep]
  split_ifs <;> rfl

lemma instancedFallingStep_scl (cfg : FallingConfig) (i : ℕ) (s : FallingState)
    (f : FrameTick) : (instancedFallingStep cfg i s f).scl = s.scl := by
  simp only [instancedFallingStep]
  split_ifs <;> rfl

lemma instancedFallingStep_pos_reset (cfg : FallingConfig) (i : ℕ) (s : FallingState)
    (f : FrameTick)
    (h : s.pos.y - s.particle.factorY * s.particle.speedFactor * 60 * min f.delta 0.1 <
      -(f.viewportHeight / 2) - cfg.resetBoundaryOffset) :
    (instancedFallingStep cfg i s f).pos =
      ⟨(f.rX - 0.5) * f.viewportWidth * (cfg.initialHorizontalSpreadFactor * 0.9),
        f.viewportHeight / 2 + 1 + f.rY * cfg.resetVerticalSpread,
        (f.rZ - 0.5) * cfg.initialDepthSpread⟩ := by
  simp only [instancedFallingStep]
  rw [if_pos (by linarith)]

lemma instancedFallingStep_pos_no_reset (cfg : FallingConfig) (i : ℕ) (s : FallingState)
    (f : FrameTick)
    (h : ¬(s.pos.y - s.particle.factorY * s.particle.speedFactor * 60 * min f.delta 0.1 <
      -(f.viewportHeight / 2) - cfg.resetBoundaryOffset)) :
    (instancedFallingStep cfg i s f).pos =
      ⟨s.pos.x +
          Real.sin (f.time * 0.4 + (i : ℝ) * 0.6) * s.particle.swayFactorX *
            s.particle.speedFactor * 30 * min f.delta 0.1,
        s.pos.y - s.particle.factorY * s.particle.speedFactor * 60 * min f.delta 0.1,
        s.pos.z⟩ := by
  simp only [instancedFallingStep]
  rw [if_neg (by linarith)]


/-! ## Claim theorems: falling-species integrator -/

/-- C1: for every falling-species particle (sakura, snow, leaves) whose y
position after the frame's displacement lies below `bottomEdge - margin`, the
same integrator step repositions it strictly above `topEdge`, and its new x
is redrawn across the frame tick's own viewport width (the step reads the
viewport from the tick, never from the spawn-time state). -/
theorem falling_boundary_reset (i : ℕ) (sF sS sI : FallingState) (fF fS fI : FrameTick)
    (cfg : FallingConfig)
    (hF : sF.pos.y - sF.particle.factorY * sF.particle.speedFactor * 60 * fF.delta <
      -(fF.viewportHeight / 2) - 2)
    (hFr : 0 ≤ fF.rY)
    (hS : sS.pos.y - sS.particle.factorY * sS.particle.speedFactor * 60 * fS.delta <
      -(fS.viewportHeight / 2) - 2)
    (hSr : 0 ≤ fS.rY)
    (hI : sI.pos.y - sI.particle.factorY * sI.particle.speedFactor * 60 * min fI.delta 0.1 <
      -(fI.viewportHeight / 2) - cfg.resetBoundaryOffset)
    (hIr : 0 ≤ fI.rY) (hIs : 0 ≤ cfg.resetVerticalSpread) :
    (fF.viewportHeight / 2 < (floatingStep i sF fF).pos.y ∧
        (floatingStep i sF fF).pos.x = (fF.rX - 0.5) * fF.viewportWidth * 1.6) ∧
      (fS.viewportHeight / 2 < (snowfallStep i sS fS).pos.y ∧
        (snowfallStep i sS fS).pos.x = (fS.rX - 0.5) * fS.viewportWidth * 1.6) ∧
      (fI.viewportHeight / 2 < (instancedFallingStep cfg i sI fI).pos.y ∧
        (instancedFallingStep cfg i sI fI).pos.x =
          (fI.rX - 0.5) * fI.viewportWidth * (cfg.initialHorizontalSpreadFactor * 0.9)) := by
  refine ⟨⟨?_, ?_⟩, ⟨?_, ?_⟩, ⟨?_, ?_⟩⟩
  · rw [floatingStep_pos_reset i sF fF hF]; dsimp only; linarith
  · rw [floatingStep_pos_reset i sF fF hF]
  · rw [snowfallStep_pos_reset i sS fS hS]; dsimp only; linarith
  · rw [snowfallStep_pos_reset i sS fS hS]
  · rw [instancedFallingStep_pos_reset cfg i sI fI hI]; dsimp only
    nlinarith [mul_nonneg hIr hIs]
  · rw [instancedFallingStep_pos_reset cfg i sI fI hI]

/-- Witness for C1 at a concrete crossing instance (`y = -100`, 20x10
viewport, mid-range random draws). -/
theorem falling_boundary_reset_witness :
    (sampleTick.viewportHeight / 2 < (floatingStep 0 sampleResetState sampleTick).pos.y ∧
        (floatingStep 0 sampleResetState sampleTick).pos.x =
          (sampleTick.rX - 0.5) * sampleTick.viewportWidth * 1.6) ∧
      (sampleTick.viewportHeight / 2 < (snowfallStep 0 sampleResetState sampleTick).pos.y ∧
        (snowfallStep 0 sampleResetState sampleTick).pos.x =
          (sampleTick.rX - 0.5) * sampleTick.viewportWidth * 1.6) ∧
      (sampleTick.viewportHeight / 2 <
          (instancedFallingStep defaultFallingConfig 0 sampleResetState sampleTick).pos.y ∧
        (instancedFallingStep defaultFallingConfig 0 sampleResetState sampleTick).pos.x =
          (sampleTick.rX - 0.5) * sampleTick.viewportWidth *
            (defaultFallingConfig.initialHorizontalSpreadFactor * 0.9)) :=
  falling_boundary_reset 0 sampleResetState sampleResetState sampleResetState
    sampleTick sampleTick sampleTick defaultFallingConfig
    (by norm_num [sampleResetState, sampleParticle, sampleTick])
    (by norm_num [sampleTick])
    (by norm_num [sampleResetState, sampleParticle, sampleTick])
    (by norm_num [sampleTick])
    (by norm_num [sampleResetState, sampleParticle, sampleTick, defaultFallingConfig, min_def])
    (by norm_num [sampleTick])
    (by norm_num [defaultFallingConfig])

/-- C2 (amended): in a step where the boundary reset does not trigger, the
y displacement is exactly `fallRate * speedFactor * 60 * dt` and the lateral
displacement exactly `sin(time * swayFreq + i * idxFreq) * swayAmplitude *
speedFactor * swayScale * dt`, where `dt` is the raw frame `delta` for
`FloatingParticles` but the clamped `min(delta, 0.1)` for
`InstancedFallingItems`. -/
theorem step_displacement_exact (i : ℕ) (sF sI : FallingState) (fF fI : FrameTick)
    (cfg : FallingConfig)
    (hF : ¬(sF.pos.y - sF.particle.factorY * sF.particle.speedFactor * 60 * fF.delta <
      -(fF.viewportHeight / 2) - 2))
    (hI : ¬(sI.pos.y - sI.particle.factorY * sI.particle.speedFactor * 60 * min fI.delta 0.1 <
      -(fI.viewportHeight / 2) - cfg.resetBoundaryOffset)) :
    ((floatingStep i sF fF).pos.y =
        sF.pos.y - sF.particle.factorY * sF.particle.speedFactor * 60 * fF.delta ∧
      (floatingStep i sF fF).pos.x =
        sF.pos.x +
          Real.sin (fF.time * 0.3 + (i : ℝ) * 0.5) * sF.particle.swayFactorX *
            sF.particle.speedFactor * 20 * fF.delta) ∧
      ((instancedFallingStep cfg i sI fI).pos.y =
          sI.pos.y - sI.particle.factorY * sI.particle.speedFactor * 60 * min fI.delta 0.1 ∧
        (instancedFallingStep cfg i sI fI).pos.x =
          sI.pos.x +
            Real.sin (fI.time * 0.4 + (i : ℝ) * 0.6) * sI.particle.swayFactorX *
              sI.particle.speedFactor * 30 * min fI.delta 0.1) := by
  rw [floatingStep_pos_no_reset i sF fF hF, instancedFallingStep_pos_no_reset cfg i sI fI hI]
  exact ⟨⟨rfl, rfl⟩, rfl, rfl⟩

/-- Witness for C2 at a concrete non-crossing instance. -/
theorem step_displacement_exact_witness :
    ((floatingStep 0 sampleDriftState sampleTick).pos.y =
        sampleDriftState.pos.y -
          sampleDriftState.particle.factorY * sampleDriftState.particle.speedFactor * 60 *
            sampleTick.delta ∧
      (floatingStep 0 sampleDriftState sampleTick).pos.x =
        sampleDriftState.pos.x +
          Real.sin (sampleTick.time * 0.3 + (0 : ℝ) * 0.5) *
            sampleDriftState.particle.swayFactorX * sampleDriftState.particle.speedFactor * 20 *
            sampleTick.delta) ∧
      ((instancedFallingStep defaultFallingConfig 0 sampleDriftState sampleTick).pos.y =
          sampleDriftState.pos.y -
            sampleDriftState.particle.factorY * sampleDriftState.particle.speedFactor * 60 *
              min sampleTick.delta 0.1 ∧
        (instancedFallingStep defaultFallingConfig 0 sampleDriftState sampleTick).pos.x =
          sampleDriftState.pos.x +
            Real.sin (sampleTick.time * 0.4 + (0 : ℝ) * 0.6) *
              sampleDriftState.particle.swayFactorX * sampleDriftState.particle.speedFactor * 30 *
              min sampleTick.delta 0.1) := by
  have h := step_displacement_exact 0 sampleDriftState sampleDriftState sampleTick sampleTick
    defaultFallingConfig
    (by norm_num [sampleDriftState, sampleParticle, sampleTick])
    (by norm_num [sampleDriftState, sampleParticle, sampleTick, defaultFallingConfig, min_def])
  simpa using h

/-- C2 counterexample: with a frame `delta = 0.2` the `InstancedFallingItems`
integrator moves a particle down by `fallRate * speedFactor * 60 * 0.1`
(the clamped dt), not by `fallRate * speedFactor * 60 * delta` as the claim
requires for every supplied `deltaTime`: the resulting y is `-0.03`, whereas
the claim's formula demands `-0.06`. -/
theorem instanced_dt_clamp_cex :
    (instancedFallingStep defaultFallingConfig 0 sampleDriftState lagSpikeTick).pos.y =
        -(3/100) ∧
      sampleDriftState.pos.y -
          sampleDriftState.particle.factorY * sampleDriftState.particle.speedFactor * 60 *
            lagSpikeTick.delta = -(6/100) ∧
      (-(3/100) : ℝ) ≠ -(6/100) := by
  refine ⟨?_, by norm_num [sampleDriftState, sampleParticle, lagSpikeTick], by norm_num⟩
  rw [instancedFallingStep_pos_no_reset defaultFallingConfig 0 sampleDriftState lagSpikeTick
    (by norm_num [sampleDriftState, sampleParticle, lagSpikeTick, defaultFallingConfig, min_def])]
  norm_num [sampleDriftState, sampleParticle, lagSpikeTick, min_def]

/-- C6 (amended): a boundary respawn leaves the particle's spawn-time record
(velocity parameters and stored color) and its scale untouched for all three
falling species, and for `FloatingParticles`/`snowfall` the resulting rotation
is independent of position (the reset branch touches only position); in
`InstancedFallingItems` the reset additionally nudges the rotation
(see `instanced_reset_rotation_cex`). -/
theorem respawn_preserves_identity (i : ℕ) (sF sS sI : FallingState) (fF fS fI : FrameTick)
    (cfg : FallingConfig)
    (hF : sF.pos.y - sF.particle.factorY * sF.particle.speedFactor * 60 * fF.delta <
      -(fF.viewportHeight / 2) - 2)
    (hS : sS.pos.y - sS.particle.factorY * sS.particle.speedFactor * 60 * fS.delta <
      -(fS.viewportHeight / 2) - 2)
    (hI : sI.pos.y - sI.particle.factorY * sI.particle.speedFactor * 60 * min fI.delta 0.1 <
      -(fI.viewportHeight / 2) - cfg.resetBoundaryOffset) :
    ((floatingStep i sF fF).particle = sF.particle ∧
        (floatingStep i sF fF).scl = sF.scl ∧
        ∀ s' : FallingState, s'.particle = sF.particle → s'.quat = sF.quat →
          (floatingStep i s' fF).quat = (floatingStep i sF fF).quat) ∧
      ((snowfallStep i sS fS).particle = sS.particle ∧
        (snowfallStep i sS fS).scl = sS.scl ∧
        ∀ s' : FallingState, s'.particle = sS.particle → s'.quat = sS.quat →
          (snowfallStep i s' fS).quat = (snowfallStep i sS fS).quat) ∧
      ((instancedFallingStep cfg i sI fI).particle = sI.particle ∧
        (instancedFallingStep cfg i sI fI).scl = sI.scl) := by
  refine ⟨⟨floatingStep_particle i sF fF, floatingStep_scl i sF fF, fun s' hp hq => ?_⟩,
    ⟨snowfallStep_particle i sS fS, snowfallStep_scl i sS fS, fun s' hp hq => ?_⟩,
    instancedFallingStep_particle cfg i sI fI, instancedFallingStep_scl cfg i sI fI⟩
  · rw [floatingStep_quat i s' fF, floatingStep_quat i sF fF, hp, hq]
  · rw [snowfallStep_quat i s' fS, snowfallStep_quat i sS fS, hp, hq]

/-- Witness for C6 at a concrete crossing instance. -/
theorem respawn_preserves_identity_witness :
    ((floatingStep 0 sampleResetState sampleTick).particle = sampleResetState.particle ∧
        (floatingStep 0 sampleResetState sampleTick).scl = sampleResetState.scl ∧
        ∀ s' : FallingState, s'.particle = sampleResetState.particle →
          s'.quat = sampleResetState.quat →
          (floatingStep 0 s' sampleTick).quat =
            (floatingStep 0 sampleResetState sampleTick).quat) ∧
      ((snowfallStep 0 sampleResetState sampleTick).particle = sampleResetState.particle ∧
        (snowfallStep 0 sampleResetState sampleTick).scl = sampleResetState.scl ∧
        ∀ s' : FallingState, s'.particle = sampleResetState.particle →
          s'.quat = sampleResetState.quat →
          (snowfallStep 0 s' sampleTick).quat =
            (snowfallStep 0 sampleResetState sampleTick).quat) ∧
      ((instancedFallingStep defaultFallingConfig 0 sampleResetState sampleTick).particle =
          sampleResetState.particle ∧
        (instancedFallingStep defaultFallingConfig 0 sampleResetState sampleTick).scl =
          sampleResetState.scl) :=
  respawn_preserves_identity 0 sampleResetState sampleResetState sampleResetState
    sampleTick sampleTick sampleTick defaultFallingConfig
    (by norm_num [sampleResetState, sampleParticle, sampleTick])
    (by norm_num [sampleResetState, sampleParticle, sampleTick])
    (by norm_num [sampleResetState, sampleParticle, sampleTick, defaultFallingConfig, min_def])

/-- C6 counterexample: in `InstancedFallingItems`, a boundary respawn does not
reassign only the position fields — it also changes the rotation. For a
non-tumbling particle at identity orientation, a crossing step with reset
Euler draws `(0, 1/2, 0)` slerps the orientation 10% toward `(0, π, 0)`,
yielding a quaternion different from the particle's orientation before the
step (its y component becomes `sin(π/20) > 0`). -/
theorem instanced_reset_rotation_cex :
    (instancedFallingStep defaultFallingConfig 0 spinFreeResetState yflipResetTick).quat ≠
      spinFreeResetState.quat := by
  have hq1 : (instancedFallingStep defaultFallingConfig 0 spinFreeResetState yflipResetTick).quat =
      slerp ⟨0, 0, 0, 1⟩ ⟨0, 1, 0, 0⟩ 0.1 := by
    rw [instancedFallingStep]
    rw [if_pos (by norm_num [spinFreeResetState, yflipResetTick, defaultFallingConfig])]
    simp only [spinFreeResetState, yflipResetTick, defaultFallingConfig]
    rw [eulerFromQuatXYZ_id]
    norm_num [quatFromEulerXYZ_zero]
    rw [show (1 / 2 : ℝ) * Real.pi * 2 = Real.pi by ring]
    rw [quatFromEulerXYZ_ypi]
  rw [hq1, slerp_id_to_yflip]
  have hpos : (0 : ℝ) < Real.sin (0.1 * (Real.pi / 2)) := by
    apply Real.sin_pos_of_pos_of_lt_pi
    · positivity
    · nlinarith [Real.pi_pos]
  intro h
  have hy := congrArg Quat.y h
  simp only [spinFreeResetState] at hy
  linarith [hpos]

/-! ## Claim theorems: colors -/

lemma clamp01_nonneg (v : ℝ) : 0 ≤ clamp01 v := le_max_left 0 _

lemma clamp01_le_one (v : ℝ) : clamp01 v ≤ 1 := max_le (by norm_num) (min_le_left 1 v)

lemma firefliesStep_colorWrite (s : FireflyState) (f : FireflyTick) :
    (firefliesStep s f).2 =
      if f.hasColor then
        some ⟨s.particle.baseColor.r *
            (0.7 + (Real.sin (f.time * s.particle.flickerSpeed + s.particle.phase) + 1) / 2 * 0.6),
          s.particle.baseColor.g *
            (0.7 + (Real.sin (f.time * s.particle.flickerSpeed + s.particle.phase) + 1) / 2 * 0.6),
          s.particle.baseColor.b *
            (0.7 + (Real.sin (f.time * s.particle.flickerSpeed + s.particle.phase) + 1) / 2 * 0.6)⟩
      else none := rfl

lemma sampleFirefly_colorWrite :
    (firefliesStep sampleFireflyState sampleFireflyTick).2 =
      some ⟨173 / 255 * (13 / 10), 13 / 10, 47 / 255 * (13 / 10)⟩ := by
  rw [firefliesStep_colorWrite]
  simp only [sampleFireflyState, sampleFirefly, sampleFireflyTick, if_true]
  norm_num [Real.sin_pi_div_two]

/-- C3 (amended): every RGB channel of every stored spawn color lies in
`[0,1]` for all species — sakura petals, leaves and fog clamp each jittered
channel, snow clamps its shared-delta jitter, and the unjittered firefly and
raindrop palettes lie in `[0,1]`; the instance color *buffer*, however, does
not stay within `[0,1]` for all species at all times: the per-frame firefly
brightness write is unclamped and can reach `1.3 × base > 1`
(see `firefly_buffer_channel_exceeds_one`). -/
theorem spawn_color_clamped (base : Color3) (r1 r2 r3 rs : ℝ) :
    ((0 ≤ (spawnJitteredColor base r1 r2 r3).r ∧ (spawnJitteredColor base r1 r2 r3).r ≤ 1) ∧
        (0 ≤ (spawnJitteredColor base r1 r2 r3).g ∧ (spawnJitteredColor base r1 r2 r3).g ≤ 1) ∧
        (0 ≤ (spawnJitteredColor base r1 r2 r3).b ∧ (spawnJitteredColor base r1 r2 r3).b ≤ 1)) ∧
      ((0 ≤ (snowSpawnColor base rs).r ∧ (snowSpawnColor base rs).r ≤ 1) ∧
        (0 ≤ (snowSpawnColor base rs).g ∧ (snowSpawnColor base rs).g ≤ 1) ∧
        (0 ≤ (snowSpawnColor base rs).b ∧ (snowSpawnColor base rs).b ≤ 1)) ∧
      (∀ c ∈ fireflyColors,
        (0 ≤ c.r ∧ c.r ≤ 1) ∧ (0 ≤ c.g ∧ c.g ≤ 1) ∧ (0 ≤ c.b ∧ c.b ≤ 1)) ∧
      ∀ c ∈ raindropColors,
        (0 ≤ c.r ∧ c.r ≤ 1) ∧ (0 ≤ c.g ∧ c.g ≤ 1) ∧ (0 ≤ c.b ∧ c.b ≤ 1) := by
  refine ⟨⟨⟨clamp01_nonneg _, clamp01_le_one _⟩, ⟨clamp01_nonneg _, clamp01_le_one _⟩,
      ⟨clamp01_nonneg _, clamp01_le_one _⟩⟩,
    ⟨⟨clamp01_nonneg _, clamp01_le_one _⟩, ⟨clamp01_nonneg _, clamp01_le_one _⟩,
      ⟨clamp01_nonneg _, clamp01_le_one _⟩⟩, ?_, ?_⟩
  · intro c hc
    fin_cases hc <;> norm_num
  · intro c hc
    fin_cases hc <;> norm_num

/-- Witness for C3 at an out-of-range base color and concrete draws. -/
theorem spawn_color_clamped_witness :
    ((0 ≤ (spawnJitteredColor ⟨5, -3, 1/2⟩ 1 0 (1/2)).r ∧
          (spawnJitteredColor ⟨5, -3, 1/2⟩ 1 0 (1/2)).r ≤ 1) ∧
        (0 ≤ (spawnJitteredColor ⟨5, -3, 1/2⟩ 1 0 (1/2)).g ∧
          (spawnJitteredColor ⟨5, -3, 1/2⟩ 1 0 (1/2)).g ≤ 1) ∧
        (0 ≤ (spawnJitteredColor ⟨5, -3, 1/2⟩ 1 0 (1/2)).b ∧
          (spawnJitteredColor ⟨5, -3, 1/2⟩ 1 0 (1/2)).b ≤ 1)) ∧
      ((0 ≤ (snowSpawnColor ⟨5, -3, 1/2⟩ 0).r ∧ (snowSpawnColor ⟨5, -3, 1/2⟩ 0).r ≤ 1) ∧
        (0 ≤ (snowSpawnColor ⟨5, -3, 1/2⟩ 0).g ∧ (snowSpawnColor ⟨5, -3, 1/2⟩ 0).g ≤ 1) ∧
        (0 ≤ (snowSpawnColor ⟨5, -3, 1/2⟩ 0).b ∧ (snowSpawnColor ⟨5, -3, 1/2⟩ 0).b ≤ 1)) ∧
      (∀ c ∈ fireflyColors,
        (0 ≤ c.r ∧ c.r ≤ 1) ∧ (0 ≤ c.g ∧ c.g ≤ 1) ∧ (0 ≤ c.b ∧ c.b ≤ 1)) ∧
      ∀ c ∈ raindropColors,
        (0 ≤ c.r ∧ c.r ≤ 1) ∧ (0 ≤ c.g ∧ c.g ≤ 1) ∧ (0 ≤ c.b ∧ c.b ≤ 1) :=
  spawn_color_clamped ⟨5, -3, 1/2⟩ 1 0 (1/2) 0

/-- C3 counterexample: the firefly frame step writes `#ADFF2F × 1.3` into the
instance color buffer when the pulse peaks — the green channel written is
`1.3 > 1`, so the color buffer does not remain within `[0,1]` for all
species at all times. -/
theorem firefly_buffer_channel_exceeds_one :
    (firefliesStep sampleFireflyState sampleFireflyTick).2 =
        some ⟨173 / 255 * (13 / 10), 13 / 10, 47 / 255 * (13 / 10)⟩ ∧
      (1 : ℝ) < 13 / 10 :=
  ⟨sampleFirefly_colorWrite, by norm_num⟩

/-- C10: the RGB value a firefly frame writes into the color buffer equals the
stored base color scaled channel-wise by `0.7 + pulse * 0.6` with
`pulse = (sin(time * flickerSpeed + phase) + 1) / 2`; the factor stays within
`[0.7, 1.3]`, the write is unclamped (a channel can exceed 1, witnessed by a
concrete state), and the stored base color and phase are not mutated by the
step. -/
theorem firefly_color_brightness (s : FireflyState) (f : FireflyTick)
    (h : f.hasColor = true) :
    (firefliesStep s f).2 =
        some ⟨s.particle.baseColor.r *
            (0.7 + (Real.sin (f.time * s.particle.flickerSpeed + s.particle.phase) + 1) / 2 * 0.6),
          s.particle.baseColor.g *
            (0.7 + (Real.sin (f.time * s.particle.flickerSpeed + s.particle.phase) + 1) / 2 * 0.6),
          s.particle.baseColor.b *
            (0.7 + (Real.sin (f.time * s.particle.flickerSpeed + s.particle.phase) + 1) / 2 * 0.6)⟩ ∧
      0.7 ≤ 0.7 + (Real.sin (f.time * s.particle.flickerSpeed + s.particle.phase) + 1) / 2 * 0.6 ∧
      0.7 + (Real.sin (f.time * s.particle.flickerSpeed + s.particle.phase) + 1) / 2 * 0.6 ≤ 1.3 ∧
      (firefliesStep s f).1.particle.baseColor = s.particle.baseColor ∧
      (firefliesStep s f).1.particle.phase = s.particle.phase ∧
      ∃ (s' : FireflyState) (f' : FireflyTick) (c : Color3),
        (firefliesStep s' f').2 = some c ∧ 1 < c.g := by
  refine ⟨?_, ?_, ?_, rfl, rfl,
    sampleFireflyState, sampleFireflyTick, _, sampleFirefly_colorWrite, by norm_num⟩
  · rw [firefliesStep_colorWrite, if_pos h]
  · have := Real.neg_one_le_sin (f.time * s.particle.flickerSpeed + s.particle.phase)
    linarith
  · have := Real.sin_le_one (f.time * s.particle.flickerSpeed + s.particle.phase)
    linarith

/-- Witness for C10 at the concrete firefly state `sampleFireflyState`. -/
theorem firefly_color_brightness_witness :
    (firefliesStep sampleFireflyState sampleFireflyTick).2 =
        some ⟨sampleFireflyState.particle.baseColor.r *
            (0.7 + (Real.sin (sampleFireflyTick.time * sampleFireflyState.particle.flickerSpeed +
                sampleFireflyState.particle.phase) + 1) / 2 * 0.6),
          sampleFireflyState.particle.baseColor.g *
            (0.7 + (Real.sin (sampleFireflyTick.time * sampleFireflyState.particle.flickerSpeed +
                sampleFireflyState.particle.phase) + 1) / 2 * 0.6),
          sampleFireflyState.particle.baseColor.b *
            (0.7 + (Real.sin (sampleFireflyTick.time * sampleFireflyState.particle.flickerSpeed +
                sampleFireflyState.particle.phase) + 1) / 2 * 0.6)⟩ ∧
      0.7 ≤ 0.7 + (Real.sin (sampleFireflyTick.time * sampleFireflyState.particle.flickerSpeed +
          sampleFireflyState.particle.phase) + 1) / 2 * 0.6 ∧
      0.7 + (Real.sin (sampleFireflyTick.time * sampleFireflyState.particle.flickerSpeed +
          sampleFireflyState.particle.phase) + 1) / 2 * 0.6 ≤ 1.3 ∧
      (firefliesStep sampleFireflyState sampleFireflyTick).1.particle.baseColor =
        sampleFireflyState.particle.baseColor ∧
      (firefliesStep sampleFireflyState sampleFireflyTick).1.particle.phase =
        sampleFireflyState.particle.phase ∧
      ∃ (s' : FireflyState) (f' : FireflyTick) (c : Color3),
        (firefliesStep s' f').2 = some c ∧ 1 < c.g :=
  firefly_color_brightness sampleFireflyState sampleFireflyTick rfl

/-! ## Claim theorems: buffer update discipline -/

lemma subset_take_of_getElem_notin {α : Type} (A B : List α) (j : ℕ) (e : α)
    (hget : (A ++ B)[j]? = some e) (he : e ∉ A) : ∀ x ∈ A, x ∈ (A ++ B).take j := by
  intro x hx
  have hj : A.length ≤ j := by
    by_contra hlt
    push_neg at hlt
    rw [List.getElem?_append, if_pos hlt] at hget
    exact he (List.getElem?_mem hget)
  rw [List.take_append_eq_append_take, List.take_of_length_le hj]
  exact List.mem_append_left _ hx

/-- C7: within one frame, the needs-GPU-upload flag of each buffer is set at
most once (never inside the per-instance loop), and whenever it is set, all
`count` per-instance writes to that buffer have already happened — for the
`FloatingParticles` matrix buffer and for the `Fireflies` matrix and color
buffers, independent of `count`. -/
theorem buffer_flag_once_after_writes (n : ℕ) (b : Bool) :
    (floatingFrameTrace n).count BufferEvent.flagMatrix ≤ 1 ∧
      (∀ j, (floatingFrameTrace n)[j]? = some BufferEvent.flagMatrix →
        ∀ i, i < n → BufferEvent.writeMatrix i ∈ (floatingFrameTrace n).take j) ∧
      (firefliesFrameTrace n b).count BufferEvent.flagMatrix ≤ 1 ∧
      (firefliesFrameTrace n b).count BufferEvent.flagColor ≤ 1 ∧
      (∀ j, (firefliesFrameTrace n b)[j]? = some BufferEvent.flagMatrix →
        ∀ i, i < n → BufferEvent.writeMatrix i ∈ (firefliesFrameTrace n b).take j) ∧
      (∀ j, (firefliesFrameTrace n b)[j]? = some BufferEvent.flagColor →
        ∀ i, i < n → BufferEvent.writeColor i ∈ (firefliesFrameTrace n b).take j) := by
  have hflatMatrix : (((List.range n).flatMap fun i =>
      (if b then [BufferEvent.writeColor i] else []) ++ [BufferEvent.writeMatrix i])).count
        BufferEvent.flagMatrix = 0 := by
    rw [List.count_eq_zero]
    intro h
    rw [List.mem_flatMap] at h
    obtain ⟨a, -, ha⟩ := h
    rcases List.mem_append.1 ha with h' | h' <;> [skip; simp at h']
    split_ifs at h' <;> simp at h'
  have hflatColor : (((List.range n).flatMap fun i =>
      (if b then [BufferEvent.writeColor i] else []) ++ [BufferEvent.writeMatrix i])).count
        BufferEvent.flagColor = 0 := by
    rw [List.count_eq_zero]
    intro h
    rw [List.mem_flatMap] at h
    obtain ⟨a, -, ha⟩ := h
    rcases List.mem_append.1 ha with h' | h' <;> [skip; simp at h']
    split_ifs at h' <;> simp at h'
  refine ⟨?_, ?_, ?_, ?_, ?_, ?_⟩
  · unfold floatingFrameTrace
    rw [List.count_append]
    have h1 : ((List.range n).map BufferEvent.writeMatrix).count BufferEvent.flagMatrix = 0 := by
      simp [List.count_eq_zero]
    rw [h1]
    split_ifs <;> simp
  · intro j hj i hi
    have :=
      subset_take_of_getElem_notin ((List.range n).map BufferEvent.writeMatrix)
        (if 0 < n then [BufferEvent.flagMatrix] else []) j BufferEvent.flagMatrix hj (by simp)
    refine this _ ?_
    simp only [List.mem_map, List.mem_range]
    exact ⟨i, hi, rfl⟩
  · unfold firefliesFrameTrace
    rw [List.count_append, List.count_append, hflatMatrix]
    split_ifs <;> simp
  · unfold firefliesFrameTrace
    rw [List.count_append, List.count_append, hflatColor]
    split_ifs <;> simp
  · intro j hj i hi
    unfold firefliesFrameTrace at hj ⊢
    rw [List.append_assoc] at hj ⊢
    refine subset_take_of_getElem_notin _ _ j BufferEvent.flagMatrix hj ?_ _ ?_
    · intro h
      rw [List.mem_flatMap] at h
      obtain ⟨a, -, ha⟩ := h
      rcases List.mem_append.1 ha with h' | h' <;> [skip; simp at h']
      split_ifs at h' <;> simp at h'
    · rw [List.mem_flatMap]
      exact ⟨i, List.mem_range.2 hi, List.mem_append_right _ (by simp)⟩
  · intro j hj i hi
    cases b with
    | false =>
      exfalso
      have hm := List.getElem?_mem hj
      unfold firefliesFrameTrace at hm
      rcases List.mem_append.1 hm with h | h
      · rcases List.mem_append.1 h with h' | h'
        · rw [List.mem_flatMap] at h'
          obtain ⟨a, -, ha⟩ := h'
          rcases List.mem_append.1 ha with h'' | h'' <;> simp at h''
        · simp at h'
      · simp at h
    | true =>
      unfold firefliesFrameTrace at hj ⊢
      refine subset_take_of_getElem_notin _ _ j BufferEvent.flagColor hj ?_ _ ?_
      · intro h
        rcases List.mem_append.1 h with h' | h'
        · rw [List.mem_flatMap] at h'
          obtain ⟨a, -, ha⟩ := h'
          rcases List.mem_append.1 ha with h'' | h'' <;> [skip; simp at h'']
          split_ifs at h'' <;> simp at h''
        · simp at h'
      · refine List.mem_append_left _ ?_
        rw [List.mem_flatMap]
        exact ⟨i, List.mem_range.2 hi, List.mem_append_left _ (by simp)⟩

/-- Witness for C7 at `count = 2` with a color attribute present: the
matrix flag of `FloatingParticles` sits at index 2 (after both writes), and
the color flag of `Fireflies` sits at index 5 (after both color writes). -/
theorem buffer_flag_once_after_writes_witness :
    (floatingFrameTrace 2).count BufferEvent.flagMatrix ≤ 1 ∧
      BufferEvent.writeMatrix 0 ∈ (floatingFrameTrace 2).take 2 ∧
      BufferEvent.writeColor 1 ∈ (firefliesFrameTrace 2 true).take 5 :=
  ⟨(buffer_flag_once_after_writes 2 true).1,
    (buffer_flag_once_after_writes 2 true).2.1 2 (by decide) 0 (by decide),
    (buffer_flag_once_after_writes 2 true).2.2.2.2.2 5 (by decide) 1 (by decide)⟩

/-- C8 (amended): a missing mesh handle, missing instance-matrix buffer,
missing particle array or empty particle array makes the whole frame a no-op
for `FloatingParticles`, `snowfall`, `InstancedFallingItems`, both `Rainfall`
versions, and `FogVolume`; `Fireflies` short-circuits only on a missing mesh
or missing/empty particle array — its guard does not cover a missing
instance-matrix buffer (see `fireflies_unguarded_matrix_buffer`). -/
theorem frame_guard_skips (mesh inst parts colorAttr : Bool) (len meshCount count : ℕ)
    (b : Bool) (h : mesh = false ∨ inst = false ∨ parts = false ∨ len = 0) :
    floatingFrame mesh inst parts len count = [] ∧
      snowfallFrame mesh inst parts len count = [] ∧
      instancedFrame mesh inst parts len meshCount count = [] ∧
      rainfallFrameA mesh inst colorAttr parts len count = [] ∧
      rainfallFrameB mesh inst colorAttr parts len count = [] ∧
      fogFrame mesh inst parts len count = [] ∧
      (mesh = false ∨ parts = false ∨ len = 0 →
        firefliesFrame mesh inst parts len count b = Except.ok []) := by
  refine ⟨?_, ?_, ?_, ?_, ?_, ?_, fun h' => ?_⟩
  · rw [floatingFrame, if_pos h]
  · unfold snowfallFrame
    rcases h with h | h | h | h <;> simp [h]
  · unfold instancedFrame
    rcases h with h | h | h | h <;> simp [h]
  · unfold rainfallFrameA
    rcases h with h | h | h | h <;> simp [h]
  · unfold rainfallFrameB
    rcases h with h | h | h | h <;> simp [h]
  · unfold fogFrame
    rcases h with h | h | h | h <;> simp [h]
  · unfold firefliesFrame
    rcases h' with h' | h' | h' <;> simp [h']

/-- Witness for C8 with a missing mesh handle. -/
theorem frame_guard_skips_witness :
    floatingFrame false true true 5 5 = [] ∧
      snowfallFrame false true true 5 5 = [] ∧
      instancedFrame false true true 5 5 5 = [] ∧
      rainfallFrameA false true true true 5 5 = [] ∧
      rainfallFrameB false true true true 5 5 = [] ∧
      fogFrame false true true 5 5 = [] ∧
      (false = false ∨ true = false ∨ (5 : ℕ) = 0 →
        firefliesFrame false true true 5 5 true = Except.ok []) :=
  frame_guard_skips false true true true 5 5 5 true (Or.inl rfl)

/-- C8 counterexample: with the mesh present and one particle but the
instance-matrix buffer missing, the `Fireflies` frame is not skipped — the
loop dereferences the missing buffer (`mesh.getMatrixAt`), modelled as a
thrown error, so not every species absorbs a missing instance-matrix buffer
as a no-op. -/
theorem fireflies_unguarded_matrix_buffer :
    firefliesFrame true false true 1 1 true = Except.error () ∧
      (Except.error () : Except Unit (List BufferEvent)) ≠ Except.ok [] := by
  exact ⟨rfl, by simp⟩

end Portfolio
